import Mathlib

/-!
Shallow embedding of the Pay-Bay marketplace application (src/app.py):
data model (`User`, `Listing`), session-backed routes (`register`, `login`,
`add_listing`, `buy`, `confirm_payment`, `index`) and the external payment
provider call, with theorems checking the specification's claims.
-/

namespace PayBay

/-- A persisted account row (class `User` in app.py).
`password` stores the hash produced at registration; `balance` is the dead
monetary field. -/
structure User where
  id : Nat
  username : String
  email : String
  password : String
  balance : Rat
deriving DecidableEq, Repr

/-- A persisted listing row (class `Listing` in app.py).  `status` is the
string column holding one of "active", "pending", "sold" (default "active");
`created_at` is the creation timestamp. -/
structure Listing where
  id : Nat
  title : String
  description : String
  price : Rat
  game : String
  image : Option String
  seller_id : Nat
  status : String
  created_at : Nat
deriving DecidableEq, Repr

/-- The relational store: the two tables, plus the autoincrement counters
the database keeps for the primary keys. -/
structure Store where
  users : List User
  listings : List Listing
  nextUserId : Nat
  nextListingId : Nat
deriving DecidableEq, Repr

/-- An HTTP-level outcome of a route: a rendered template or a redirect,
each carrying the flash messages the route emitted, or a 404. -/
inductive Response where
  | render (template : String) (flashes : List String)
  | redirect (target : String) (flashes : List String)
  | notFound
deriving DecidableEq, Repr

/-- An uncaught Python exception escaping a route. -/
inductive Fault where
  | valueError
  | integrityError
  | paymentError
deriving DecidableEq, Repr

/-- Modelled collaborator (werkzeug `generate_password_hash`): the salted
iterated hash is abstracted as a deterministic injective tagging of the
password. -/
def generate_password_hash (pw : String) : String :=
  "pbkdf2:sha256$" ++ pw

/-- Modelled collaborator (werkzeug `check_password_hash`): a stored hash
matches exactly the password it was generated from. -/
def check_password_hash (stored pw : String) : Bool :=
  stored = generate_password_hash pw

/-- The result of Python `float(...)` on the submitted price form field:
either the parsed numeric value or a `ValueError`. -/
inductive PriceInput where
  | num (q : Rat)
  | malformed
deriving DecidableEq, Repr

/-- The payment request `buy` sends to the provider via `Payment.create`
(amount from the listing price, fixed currency "RUB", description built from
the title, the listing id as metadata). -/
structure PaymentRequest where
  amount : Rat
  currency : String
  description : String
  listing_id : Nat
deriving DecidableEq, Repr

/-- The external provider's behaviour for the single `Payment.create` call a
route performs: it returns a hosted checkout URL or raises. -/
inductive PaymentOutcome where
  | ok (confirmation_url : String)
  | fault
deriving DecidableEq, Repr

deriving instance DecidableEq for Except

/-- What a route produced: its HTTP outcome (or the uncaught fault), the
store after the request, and the payment-provider calls it issued. -/
structure RouteResult where
  outcome : Except Fault Response
  store : Store
  paymentCalls : List PaymentRequest
deriving DecidableEq, Repr

/-- `ORDER BY created_at DESC`: `a` sorts before `b` when `a` is at least as
new. -/
def newestFirst (a b : Listing) : Prop :=
  b.created_at ≤ a.created_at

instance : DecidableRel newestFirst := fun a b =>
  inferInstanceAs (Decidable (b.created_at ≤ a.created_at))

instance : IsTotal Listing newestFirst :=
  ⟨fun a b => Nat.le_total b.created_at a.created_at⟩

instance : IsTrans Listing newestFirst :=
  ⟨fun _ _ _ h h' => Nat.le_trans h' h⟩

/-- The query of route `index`:
`Listing.query.filter_by(status='active').order_by(Listing.created_at.desc())`. -/
def listActive (s : Store) : List Listing :=
  (s.listings.filter (fun l => l.status = "active")).insertionSort newestFirst

/-- Route `/register`, POST branch: rejects an existing username with a
flash and a redirect back; otherwise adds the new account with the hashed
password and commits, where the database enforces the UNIQUE constraints
declared on the `username` and `email` columns — a duplicate in either
raises an IntegrityError that propagates uncaught, and no row is
persisted. -/
def register (s : Store) (username email password : String) : RouteResult :=
  if (s.users.find? (fun u => u.username = username)).isSome then
    ⟨.ok (.redirect "register" ["Username already exists"]), s, []⟩
  else if (s.users.find? (fun u => u.username = username)).isSome ∨
      (s.users.find? (fun u => u.email = email)).isSome then
    ⟨.error .integrityError, s, []⟩
  else
    let user : User :=
      { id := s.nextUserId, username := username, email := email
        password := generate_password_hash password, balance := 0 }
    ⟨.ok (.redirect "login" ["Registered successfully!"]),
     { s with users := s.users ++ [user], nextUserId := s.nextUserId + 1 }, []⟩

/-- Route `/login`, POST branch: looks the user up by username, checks the
hash; on success establishes the session (the returned user id) and
redirects home, on any mismatch flashes a generic message and re-renders the
login page with no session. -/
def login (s : Store) (username password : String) : Response × Option Nat :=
  match s.users.find? (fun u => u.username = username) with
  | some user =>
    if check_password_hash user.password password then
      (.redirect "index" [], some user.id)
    else
      (.render "login.html" ["Invalid credentials"], none)
  | none => (.render "login.html" ["Invalid credentials"], none)

/-- Route `/add_listing`, POST branch, for the authenticated user `uid`:
`float(request.form['price'])` raises before anything is persisted when the
field is not numeric; otherwise a listing row is created with the parsed
price (no sign validation), status defaulting to "active". -/
def add_listing (s : Store) (uid : Nat) (title description : String)
    (price : PriceInput) (game : String) (image : Option String) (now : Nat) :
    RouteResult :=
  match price with
  | .malformed => ⟨.error .valueError, s, []⟩
  | .num p =>
    let listing : Listing :=
      { id := s.nextListingId, title := title, description := description
        price := p, game := game, image := image, seller_id := uid
        status := "active", created_at := now }
    ⟨.ok (.redirect "index" ["Listing added!"]),
     { s with listings := s.listings ++ [listing], nextListingId := s.nextListingId + 1 },
     []⟩

/-- Route `/buy/<listing_id>`, POST, for the authenticated user `uid`:
404 when the listing id is unknown; a flash and redirect when the buyer is
the seller (before any provider call); otherwise `Payment.create` is called
— a provider fault propagates uncaught with the store untouched, and on
success the listing's status is set to "pending", committed, and the caller
is redirected to the checkout URL. -/
def buy (s : Store) (uid : Nat) (listing_id : Nat) (provider : PaymentOutcome) :
    RouteResult :=
  match s.listings.find? (fun l => l.id = listing_id) with
  | none => ⟨.ok .notFound, s, []⟩
  | some listing =>
    if listing.seller_id = uid then
      ⟨.ok (.redirect "index" ["Cannot buy your own listing"]), s, []⟩
    else
      let req : PaymentRequest :=
        { amount := listing.price, currency := "RUB"
          description := "Purchase: " ++ listing.title, listing_id := listing_id }
      match provider with
      | .fault => ⟨.error .paymentError, s, [req]⟩
      | .ok url =>
        let listings := s.listings.map fun l =>
          if l.id = listing_id then { l with status := "pending" } else l
        ⟨.ok (.redirect url []), { s with listings := listings }, [req]⟩

/-- Route `/confirm_payment`: unauthenticated, unparameterized; it
unconditionally flashes a success message and redirects home, touching no
persisted state. -/
def confirm_payment (s : Store) : Store × Response :=
  (s, .redirect "index" ["Payment processed! Check your email for delivery."])

/-- Route `/profile` query for the authenticated user `uid`:
`Listing.query.filter_by(seller_id=current_user.id).all()`. -/
def profileListings (s : Store) (uid : Nat) : List Listing :=
  s.listings.filter (fun l => l.seller_id = uid)

/-! Concrete fixtures used by witnesses and counterexamples. -/

/-- Three registered accounts. -/
def sampleUsers : List User :=
  [⟨1, "alice", "alice@x.com", generate_password_hash "pw1", 0⟩,
   ⟨2, "bob", "bob@x.com", generate_password_hash "pw2", 0⟩,
   ⟨3, "carol", "carol@x.com", generate_password_hash "pw3", 0⟩]

/-- An active listing owned by alice (id 1). -/
def sampleListing : Listing :=
  ⟨1, "Sword", "sharp", 10, "X", none, 1, "active", 100⟩

/-- A store with three accounts and alice's active listing. -/
def sampleStore : Store :=
  ⟨sampleUsers, [sampleListing], 4, 2⟩

/-- The same store after the listing was marked pending by a first buyer. -/
def pendingStore : Store :=
  ⟨sampleUsers, [{ sampleListing with status := "pending" }], 4, 2⟩

/-! Unfolding lemmas for the branches of `buy`, shared by several claims. -/

/-- On a found listing not owned by the buyer and a successful provider
call, `buy` marks the listing pending and redirects to checkout. -/
theorem buy_ok_eq (s : Store) (uid lid : Nat) (l : Listing) (url : String)
    (hfind : s.listings.find? (fun x => x.id = lid) = some l)
    (hseller : l.seller_id ≠ uid) :
    buy s uid lid (.ok url) =
      ⟨.ok (.redirect url []),
       { s with listings := s.listings.map fun x =>
           if x.id = lid then { x with status := "pending" } else x },
       [{ amount := l.price, currency := "RUB",
          description := "Purchase: " ++ l.title, listing_id := lid }]⟩ := by
  simp [buy, hfind, hseller]

/-- On a found listing not owned by the buyer and a provider fault, `buy`
raises and leaves the store untouched. -/
theorem buy_fault_eq (s : Store) (uid lid : Nat) (l : Listing)
    (hfind : s.listings.find? (fun x => x.id = lid) = some l)
    (hseller : l.seller_id ≠ uid) :
    buy s uid lid .fault =
      ⟨.error .paymentError, s,
       [{ amount := l.price, currency := "RUB",
          description := "Purchase: " ++ l.title, listing_id := lid }]⟩ := by
  simp [buy, hfind, hseller]

/-- On the buyer's own listing, `buy` flashes and redirects before any
provider call, leaving the store untouched. -/
theorem buy_own_eq (s : Store) (uid lid : Nat) (l : Listing) (pr : PaymentOutcome)
    (hfind : s.listings.find? (fun x => x.id = lid) = some l)
    (hown : l.seller_id = uid) :
    buy s uid lid pr =
      ⟨.ok (.redirect "index" ["Cannot buy your own listing"]), s, []⟩ := by
  simp [buy, hfind, hown]

/-- C1: for a listing whose seller is not the buyer, a successful `buy`
puts that listing, with status "pending", in the store, and afterwards no
listing with its id appears in `listActive`. -/
theorem buy_success_pending_hidden_from_listActive
    (s : Store) (uid lid : Nat) (l : Listing) (url : String)
    (hfind : s.listings.find? (fun x => x.id = lid) = some l)
    (hseller : l.seller_id ≠ uid) :
    (buy s uid lid (.ok url)).outcome = .ok (.redirect url []) ∧
    { l with status := "pending" } ∈ (buy s uid lid (.ok url)).store.listings ∧
    ∀ l' ∈ listActive (buy s uid lid (.ok url)).store, l'.id ≠ lid := by
  have hid : l.id = lid := by simpa using List.find?_some hfind
  have hl : l ∈ s.listings := List.mem_of_find?_eq_some hfind
  rw [buy_ok_eq s uid lid l url hfind hseller]
  refine ⟨rfl, ?_, ?_⟩
  · exact List.mem_map.mpr ⟨l, hl, by simp [hid]⟩
  · intro l' hmem
    have hfil : l' ∈ (s.listings.map fun x =>
        if x.id = lid then { x with status := "pending" } else x).filter
          (fun x => x.status = "active") := by
      simpa [listActive, List.mem_insertionSort] using hmem
    rw [List.mem_filter] at hfil
    obtain ⟨hmm, hstat⟩ := hfil
    obtain ⟨x, hx, hfx⟩ := List.mem_map.mp hmm
    by_cases hxid : x.id = lid
    · rw [if_pos hxid] at hfx
      subst hfx
      simp at hstat
    · rw [if_neg hxid] at hfx
      subst hfx
      exact hxid

/-- C1 witness: bob buys alice's listing in the sample store. -/
theorem buy_success_pending_hidden_from_listActive_witness :
    (buy sampleStore 2 1 (.ok "https://checkout/1")).outcome =
      .ok (.redirect "https://checkout/1" []) ∧
    { sampleListing with status := "pending" } ∈
      (buy sampleStore 2 1 (.ok "https://checkout/1")).store.listings ∧
    ∀ l' ∈ listActive (buy sampleStore 2 1 (.ok "https://checkout/1")).store, l'.id ≠ 1 :=
  buy_success_pending_hidden_from_listActive sampleStore 2 1 sampleListing
    "https://checkout/1" (by decide) (by decide)

/-- C2 counterexample: in the sample store, bob's purchase of alice's
listing with a faulting provider propagates the fault, yet the listing is
left with status "active", not "pending": the claim's "left in status
'pending'" is false at this input. -/
theorem buy_fault_leaves_active_counterexample :
    (buy sampleStore 2 1 .fault).outcome = .error .paymentError ∧
    (∀ l ∈ (buy sampleStore 2 1 .fault).store.listings, l.id = 1 → l.status = "active") ∧
    ¬ ∃ l ∈ (buy sampleStore 2 1 .fault).store.listings, l.status = "pending" := by
  decide

/-- C2 amended: if the provider call in `buy` raises, the fault propagates
uncaught and the store is unchanged — the listing keeps its prior status
(for an active listing, it stays "active" and so remains for sale). -/
theorem buy_fault_propagates_store_unchanged
    (s : Store) (uid lid : Nat) (l : Listing)
    (hfind : s.listings.find? (fun x => x.id = lid) = some l)
    (hseller : l.seller_id ≠ uid) :
    (buy s uid lid .fault).outcome = .error .paymentError ∧
    (buy s uid lid .fault).store = s := by
  rw [buy_fault_eq s uid lid l hfind hseller]
  exact ⟨rfl, rfl⟩

/-- C2 amended witness: the fault case on the sample store. -/
theorem buy_fault_propagates_store_unchanged_witness :
    (buy sampleStore 2 1 .fault).outcome = .error .paymentError ∧
    (buy sampleStore 2 1 .fault).store = sampleStore :=
  buy_fault_propagates_store_unchanged sampleStore 2 1 sampleListing
    (by decide) (by decide)

/-- C3 (code bug): on a listing already in status "pending", a second
authenticated non-seller buyer's `buy` still succeeds — the provider is
called and the buyer is redirected to checkout; no status check guards
against double purchase. -/
theorem buy_pending_second_buyer_succeeds :
    ((pendingStore.listings.find? (fun l => l.id = 1)).map (fun l => l.status) =
      some "pending") ∧
    (buy pendingStore 3 1 (.ok "https://checkout/2")).outcome =
      .ok (.redirect "https://checkout/2" []) ∧
    (buy pendingStore 3 1 (.ok "https://checkout/2")).paymentCalls ≠ [] := by
  decide

/-- C4: buying one's own listing fails locally with a flash and redirect,
makes no payment-provider call, changes no state, and the listing keeps its
"active" status. -/
theorem buy_own_listing_unchanged
    (s : Store) (uid lid : Nat) (l : Listing) (pr : PaymentOutcome)
    (hfind : s.listings.find? (fun x => x.id = lid) = some l)
    (hown : l.seller_id = uid) (hactive : l.status = "active") :
    buy s uid lid pr =
      ⟨.ok (.redirect "index" ["Cannot buy your own listing"]), s, []⟩ ∧
    l ∈ (buy s uid lid pr).store.listings ∧ l.status = "active" := by
  have he := buy_own_eq s uid lid l pr hfind hown
  exact ⟨he, by rw [he]; exact List.mem_of_find?_eq_some hfind, hactive⟩

/-- C4 witness: alice tries to buy her own listing in the sample store. -/
theorem buy_own_listing_unchanged_witness :
    buy sampleStore 1 1 (.ok "https://checkout/3") =
      ⟨.ok (.redirect "index" ["Cannot buy your own listing"]), sampleStore, []⟩ ∧
    sampleListing ∈ (buy sampleStore 1 1 (.ok "https://checkout/3")).store.listings ∧
    sampleListing.status = "active" :=
  buy_own_listing_unchanged sampleStore 1 1 sampleListing (.ok "https://checkout/3")
    (by decide) (by decide) (by decide)

/-- C5 counterexample: in the sample store, registering "dave" with
alice's email passes the application-level username check yet does not
succeed — the database's UNIQUE(email) constraint raises an IntegrityError
at commit and the store is unchanged, so no two rows with the same email
exist, refuting the claimed success. -/
theorem register_duplicate_email_counterexample :
    (sampleStore.users.find? (fun u => u.username = "dave") = none) ∧
    (∃ u ∈ sampleStore.users, u.email = "alice@x.com") ∧
    register sampleStore "dave" "alice@x.com" "pw4" =
      ⟨.error .integrityError, sampleStore, []⟩ := by
  decide

/-- C5 amended: registering a second account with an existing account's
email and a fresh username does not succeed: the application-level check
covers only username, but the database's UNIQUE constraint on the email
column raises an IntegrityError at commit, which propagates uncaught, and
the store is unchanged — no second row with that email is persisted. -/
theorem register_duplicate_email_integrity_error
    (s : Store) (u : User) (v e pw : String)
    (hu : u ∈ s.users) (hemail : u.email = e)
    (hfresh : s.users.find? (fun x => x.username = v) = none) :
    register s v e pw = ⟨.error .integrityError, s, []⟩ := by
  have hemailSome : (s.users.find? (fun x => x.email = e)).isSome = true := by
    rw [List.find?_isSome]
    exact ⟨u, hu, by simpa using hemail⟩
  simp [register, hfresh, hemailSome]

/-- C5 amended witness: registering "dave" with alice's email in the
sample store raises the integrity error and persists nothing. -/
theorem register_duplicate_email_integrity_error_witness :
    register sampleStore "dave" "alice@x.com" "pw4" =
      ⟨.error .integrityError, sampleStore, []⟩ :=
  register_duplicate_email_integrity_error sampleStore
    ⟨1, "alice", "alice@x.com", generate_password_hash "pw1", 0⟩
    "dave" "alice@x.com" "pw4" (by decide) rfl (by decide)

/-- C6: a second registration under an already-taken username is rejected
with a flash and redirect, the store is unchanged (no new row), and the
first account is still present. -/
theorem register_duplicate_username_rejected
    (s : Store) (u : User) (v e pw : String)
    (hu : u ∈ s.users) (hname : u.username = v) :
    register s v e pw =
      ⟨.ok (.redirect "register" ["Username already exists"]), s, []⟩ ∧
    u ∈ (register s v e pw).store.users := by
  have hsome : (s.users.find? (fun x => x.username = v)).isSome = true := by
    rw [List.find?_isSome]
    exact ⟨u, hu, by simpa using hname⟩
  have hreg : register s v e pw =
      ⟨.ok (.redirect "register" ["Username already exists"]), s, []⟩ := by
    simp [register, hsome]
  exact ⟨hreg, by rw [hreg]; exact hu⟩

/-- C6 witness: re-registering "alice" in the sample store. -/
theorem register_duplicate_username_rejected_witness :
    register sampleStore "alice" "other@x.com" "pw9" =
      ⟨.ok (.redirect "register" ["Username already exists"]), sampleStore, []⟩ ∧
    ⟨1, "alice", "alice@x.com", generate_password_hash "pw1", 0⟩ ∈
      (register sampleStore "alice" "other@x.com" "pw9").store.users :=
  register_duplicate_username_rejected sampleStore
    ⟨1, "alice", "alice@x.com", generate_password_hash "pw1", 0⟩
    "alice" "other@x.com" "pw9" (by decide) rfl

/-- C7: `listActive` returns exactly the listings whose status is "active"
(so never a "pending" or "sold" one), ordered newest first by creation
timestamp, and in full — a permutation of all active rows, with no size
bound. -/
theorem listActive_exact_active_newest_first (s : Store) :
    (∀ l, l ∈ listActive s ↔ l ∈ s.listings ∧ l.status = "active") ∧
    (∀ l ∈ listActive s, l.status ≠ "pending" ∧ l.status ≠ "sold") ∧
    (listActive s).Perm (s.listings.filter (fun l => l.status = "active")) ∧
    (listActive s).Sorted newestFirst := by
  have hmem : ∀ l, l ∈ listActive s ↔ l ∈ s.listings ∧ l.status = "active" := by
    intro l
    simp [listActive, List.mem_insertionSort, List.mem_filter]
  refine ⟨hmem, ?_, ?_, ?_⟩
  · intro l hl
    have := ((hmem l).mp hl).2
    rw [this]
    exact ⟨by decide, by decide⟩
  · exact List.perm_insertionSort newestFirst _
  · exact List.sorted_insertionSort newestFirst _

/-- C8: a login attempt with an existing username but wrong password and
one with a nonexistent username produce identical outward results — the
same generic invalid-credentials page — and neither establishes a
session. -/
theorem login_mismatch_indistinguishable
    (s : Store) (v1 p1 v2 p2 : String) (u : User)
    (hfind : s.users.find? (fun x => x.username = v1) = some u)
    (hwrong : check_password_hash u.password p1 = false)
    (hnone : s.users.find? (fun x => x.username = v2) = none) :
    login s v1 p1 = (.render "login.html" ["Invalid credentials"], none) ∧
    login s v2 p2 = (.render "login.html" ["Invalid credentials"], none) ∧
    login s v1 p1 = login s v2 p2 := by
  have h1 : login s v1 p1 = (.render "login.html" ["Invalid credentials"], none) := by
    simp [login, hfind, hwrong]
  have h2 : login s v2 p2 = (.render "login.html" ["Invalid credentials"], none) := by
    simp [login, hnone]
  exact ⟨h1, h2, h1.trans h2.symm⟩

/-- C8 witness: alice with a wrong password versus the unknown "mallory". -/
theorem login_mismatch_indistinguishable_witness :
    login sampleStore "alice" "wrong" =
      (.render "login.html" ["Invalid credentials"], none) ∧
    login sampleStore "mallory" "pw1" =
      (.render "login.html" ["Invalid credentials"], none) ∧
    login sampleStore "alice" "wrong" = login sampleStore "mallory" "pw1" :=
  login_mismatch_indistinguishable sampleStore "alice" "wrong" "mallory" "pw1"
    ⟨1, "alice", "alice@x.com", generate_password_hash "pw1", 0⟩
    (by decide) (by decide) (by decide)

/-- C9: `confirm_payment` leaves the store exactly as it was and, for every
store, produces the same fixed flash-and-redirect-home response; it consults
no listing, no payment and no payload. -/
theorem confirm_payment_leaves_state_unchanged (s : Store) :
    confirm_payment s =
      (s, .redirect "index" ["Payment processed! Check your email for delivery."]) :=
  rfl

/-- C10: a non-numeric price field makes `add_listing` raise before any
persistence — the store is returned untouched with no new row — while a
negative numeric price is accepted silently: the request succeeds and a new
row carrying that negative price is appended. -/
theorem add_listing_price_unvalidated
    (s : Store) (uid : Nat) (t d g : String) (img : Option String) (now : Nat)
    (q : Rat) (hneg : q < 0) :
    add_listing s uid t d .malformed g img now = ⟨.error .valueError, s, []⟩ ∧
    (add_listing s uid t d (.num q) g img now).outcome =
      .ok (.redirect "index" ["Listing added!"]) ∧
    ∃ l, (add_listing s uid t d (.num q) g img now).store.listings =
      s.listings ++ [l] ∧ l.price = q ∧ l.price < 0 := by
  refine ⟨rfl, rfl, ⟨_, rfl, rfl, hneg⟩⟩

/-- C10 witness: a malformed price and the numeric price -5 in the sample
store. -/
theorem add_listing_price_unvalidated_witness :
    (0 : Rat) > -5 ∧
    (add_listing sampleStore 2 "t" "d" .malformed "g" none 50 =
      ⟨.error .valueError, sampleStore, []⟩ ∧
    (add_listing sampleStore 2 "t" "d" (.num (-5)) "g" none 50).outcome =
      .ok (.redirect "index" ["Listing added!"]) ∧
    ∃ l, (add_listing sampleStore 2 "t" "d" (.num (-5)) "g" none 50).store.listings =
      sampleStore.listings ++ [l] ∧ l.price = -5 ∧ l.price < 0) :=
  ⟨by norm_num,
   add_listing_price_unvalidated sampleStore 2 "t" "d" "g" none 50 (-5) (by norm_num)⟩

end PayBay
